import Mathlib

/-!
Verification of the IDESync-VSCode-JetBrains synchronization core.

This file shallowly embeds the two peers of the sync protocol:

* `src/vscode-extension/src/extension.ts` (class `VSCodeJetBrainsSync`), and
* `src/jetbrains-plugin/.../VSCodeJetBrainsSyncService.kt`
  (class `VSCodeJetBrainsSyncService`).

Editor-API calls (open file, move caret, reveal/scroll, close tab) are
modelled as an explicit list of `EditorOp`s that a handler issues, and the
echo-guard flag (`isHandlingExternalUpdate` in both peers) is modelled by
interleaving `setFlag` events with the editor operations in a trace, so that
properties such as "the flag is true while an external update is applied"
become decidable properties of the trace.  Facts the handlers depend on that
live in the editor/filesystem (which documents are open, whether a file
exists, whether the caret target is inside the visible viewport, whether an
editor-API call throws) are passed in as explicit environment records.
-/

namespace IDESync

/-- The wire record (`SyncState` in extension.ts, `EditorState` in the Kotlin
plugin, §3 of the spec).  `source` and `action` are the literal strings the
two sources compare against (`"vscode"`, `"jetbrains"`, `"select"`,
`"close"`). -/
structure SyncState where
  filePath : String
  line : Nat
  column : Nat
  source : String
  isActive : Bool
  action : String
deriving DecidableEq, Repr

/-- A call into the external editor-control collaborator. -/
inductive EditorOp where
  /-- `openTextDocument`+`showTextDocument` (VS Code) or
  `FileEditorManager.openFile` (JetBrains). -/
  | openFile (path : String)
  /-- `editor.selection = ...` (VS Code) or
  `caretModel.moveToLogicalPosition` (JetBrains). -/
  | setCaret (line column : Nat)
  /-- `editor.revealRange` (VS Code) or
  `scrollingModel.scrollToCaret` (JetBrains). -/
  | reveal
  /-- `tabGroups.close` (VS Code) or `FileEditorManager.closeFile`
  (JetBrains). -/
  | closeTab (path : String)
deriving DecidableEq, Repr

/-- One event of a handler's execution trace: either a write to the
echo-guard flag (`isHandlingExternalUpdate`) or an editor-control call. -/
inductive FlagEv where
  | setFlag (b : Bool)
  | applyOp (op : EditorOp)
deriving DecidableEq, Repr

/-- The editor-control calls occurring in a trace, in order. -/
def opsOf (tr : List FlagEv) : List EditorOp :=
  tr.filterMap fun e =>
    match e with
    | FlagEv.setFlag _ => none
    | FlagEv.applyOp op => some op

/-- Value of the echo-guard flag after executing a trace from initial
value `f`. -/
def flagAfter : Bool → List FlagEv → Bool
  | f, [] => f
  | _, FlagEv.setFlag b :: rest => flagAfter b rest
  | f, FlagEv.applyOp _ :: rest => flagAfter f rest

/-- `true` iff every editor-control call in the trace executes while the
echo-guard flag (initially `f`) is `true`. -/
def appliesUnderFlag : Bool → List FlagEv → Bool
  | _, [] => true
  | _, FlagEv.setFlag b :: rest => appliesUnderFlag b rest
  | f, FlagEv.applyOp _ :: rest => f && appliesUnderFlag f rest

/-! ## VS Code peer: incoming handler (`handleIncomingState`, extension.ts) -/

/-- Editor-side facts the VS Code incoming handler consults.
`visible` records whether the caret target position is already inside the
visible viewport; the VS Code source never reads it (it calls `revealRange`
unconditionally), it is part of the environment so that statements about
"scroll only if not visible" can be made.  `closeThrows` models
`tabGroups.close` throwing inside the close branch's `try`; `openOk` models
`openTextDocument`/`showTextDocument` succeeding in the select branch. -/
structure VSEnv where
  openDocs : List String
  visibleEditors : List String
  openTabs : List String
  closeThrows : Bool
  openOk : Bool
  visible : Bool
deriving DecidableEq, Repr

/-- The path comparison used by `handleIncomingState`'s close branch:
exact `fsPath` equality or case-insensitive equality. -/
def pathMatches (a b : String) : Bool :=
  a = b || a.toLower = b.toLower

/-- Lines 307-324 of extension.ts: look the target up among
`workspace.textDocuments`, falling back to `window.visibleTextEditors`. -/
def vsFindDoc (env : VSEnv) (target : String) : Option String :=
  match env.openDocs.find? (fun d => pathMatches d target) with
  | some d => some d
  | none =>
    match env.visibleEditors.find? (fun d => pathMatches d target) with
    | some d => some d
    | none => none

/-- Lines 326-354 of extension.ts: if a matching document was found, search
`tabGroups` for its tab and close it; a missing document or missing tab is
only logged (no editor-control call). -/
def vsCloseOps (env : VSEnv) (target : String) : List EditorOp :=
  match vsFindDoc env target with
  | none => []
  | some doc =>
    if env.openTabs.any (fun t => pathMatches t doc) then
      [EditorOp.closeTab doc]
    else
      []

/-- Lines 372-382 of extension.ts: open the document, show it, set the
selection, and unconditionally reveal the range (`InCenter`).  If opening
throws (`openOk = false`) the error is caught after the attempted open. -/
def vsSelectOps (env : VSEnv) (m : SyncState) : List EditorOp :=
  if env.openOk then
    [EditorOp.openFile m.filePath, EditorOp.setCaret m.line m.column,
     EditorOp.reveal]
  else
    [EditorOp.openFile m.filePath]

/-- The select part of `handleIncomingState` (lines 363-388): discard unless
the message's `isActive` is set, otherwise apply under the echo-guard flag,
released in `finally`. -/
def vsSelectPart (env : VSEnv) (m : SyncState) : List FlagEv :=
  if m.isActive then
    [FlagEv.setFlag true] ++ (vsSelectOps env m).map FlagEv.applyOp
      ++ [FlagEv.setFlag false]
  else
    []

/-- Result of an incoming-message handler: its execution trace and the
outgoing message it produces.  `handleIncomingState` never calls
`updateState` or `send` in either peer, so `sent` is always `none`; carrying
the field makes that fact a provable statement rather than a typing
convention. -/
structure InResult where
  trace : List FlagEv
  sent : Option SyncState
deriving DecidableEq, Repr

/-- `handleIncomingState` of extension.ts (lines 288-389).

* line 289: a message whose `source` is `"vscode"` is discarded at once;
* lines 294-361: `action === 'close'` is handled before any `isActive`
  check, under the echo-guard flag with a `finally` release; the `return`
  at line 355 exits after the `finally` on the no-exception path, while an
  exception is caught (line 356) and control then falls through to the
  select logic below (there is no `return` in the `catch`);
* lines 364-367: a select from an inactive peer is discarded;
* lines 369-388: otherwise the select is applied under the flag. -/
def vscodeHandleIncoming (env : VSEnv) (m : SyncState) : InResult :=
  if m.source = "vscode" then
    { trace := [], sent := none }
  else if m.action = "close" then
    if env.closeThrows then
      { trace :=
          [FlagEv.setFlag true] ++ (vsCloseOps env m.filePath).map FlagEv.applyOp
            ++ [FlagEv.setFlag false] ++ vsSelectPart env m,
        sent := none }
    else
      { trace :=
          [FlagEv.setFlag true] ++ (vsCloseOps env m.filePath).map FlagEv.applyOp
            ++ [FlagEv.setFlag false],
        sent := none }
  else
    { trace := vsSelectPart env m, sent := none }

/-! ## JetBrains peer: incoming handler (`handleIncomingState`, Kotlin) -/

/-- Editor-side facts the JetBrains incoming handler consults.  `files` is
the set of paths `LocalFileSystem.findFileByIoFile` resolves; `alreadyOpen`
models `selectedEditors` already containing a `TextEditor` for the file;
`editorOk` models obtaining a `TextEditor` (the `as? TextEditor` casts);
`visible` models `visibleArea.contains(targetPoint)`. -/
structure JBEnv where
  files : List String
  alreadyOpen : Bool
  editorOk : Bool
  visible : Bool
deriving DecidableEq, Repr

/-- `LocalFileSystem.getInstance().findFileByIoFile` (exact path lookup). -/
def jbFindFile (env : JBEnv) (p : String) : Option String :=
  if env.files.contains p then some p else none

/-- Body of the `invokeLater` block in the Kotlin close branch (lines
300-314): resolve the file and close it; a missing file is only logged. -/
def jbCloseQueued (env : JBEnv) (m : SyncState) : List EditorOp :=
  match jbFindFile env m.filePath with
  | none => []
  | some f => [EditorOp.closeTab f]

/-- Body of the `invokeLater` block in the Kotlin select branch (lines
329-359): resolve the file; reuse an existing editor or open the file; move
the caret; scroll only when the target point is outside the visible area
(lines 347-352). -/
def jbSelectQueued (env : JBEnv) (m : SyncState) : List EditorOp :=
  match jbFindFile env m.filePath with
  | none => []
  | some f =>
    (if env.alreadyOpen then [] else [EditorOp.openFile f])
      ++ (if env.editorOk then
            [EditorOp.setCaret m.line m.column]
              ++ (if env.visible then [] else [EditorOp.reveal])
          else [])

/-- Result of the JetBrains incoming handler.  The editor-control work is
not run inline: `handleIncomingState` only passes it to
`ApplicationManager.invokeLater`, so the result separates the trace executed
synchronously on the websocket thread (`syncTrace`, which contains the flag
writes) from the editor operations queued for the EDT (`queued`). -/
structure JBInResult where
  syncTrace : List FlagEv
  queued : List EditorOp
  sent : Option SyncState
deriving DecidableEq, Repr

/-- `handleIncomingState` of the Kotlin service (lines 294-363).  In both
the close and the select branch the flag is set, `invokeLater` merely queues
the apply, and the `finally` clears the flag synchronously. -/
def jbHandleIncoming (env : JBEnv) (m : SyncState) : JBInResult :=
  if m.action = "close" then
    { syncTrace := [FlagEv.setFlag true, FlagEv.setFlag false],
      queued := jbCloseQueued env m,
      sent := none }
  else if m.isActive then
    { syncTrace := [FlagEv.setFlag true, FlagEv.setFlag false],
      queued := jbSelectQueued env m,
      sent := none }
  else
    { syncTrace := [], queued := [], sent := none }

/-- `onMessage` of the Kotlin websocket client (lines 122-135): parse, then
call `handleIncomingState` only when `source != "jetbrains"`. -/
def jbOnMessage (env : JBEnv) (m : SyncState) : JBInResult :=
  if m.source = "jetbrains" then
    { syncTrace := [], queued := [], sent := none }
  else
    jbHandleIncoming env m

/-- The execution trace of one JetBrains incoming message in the schedule
where the EDT runs the queued `invokeLater` work after the websocket-thread
handler has returned (the handler holds no lock, so this schedule is always
admissible). -/
def jbExecTrace (r : JBInResult) : List FlagEv :=
  r.syncTrace ++ r.queued.map FlagEv.applyOp

/-! ## VS Code peer: outgoing path (`updateState`, window listener, toggle) -/

/-- The fields of `VSCodeJetBrainsSync` that `updateState` and the window
listener read or write: the retained last-known local state
(`currentState`), the local activation flag (`isActive`), and whether
`jetbrainsClient?.readyState === WebSocket.OPEN` (`clientOpen`). -/
structure VSState where
  currentState : Option SyncState
  isActive : Bool
  clientOpen : Bool
deriving DecidableEq, Repr

/-- `updateState` of extension.ts (lines 391-408): unconditionally record
the candidate as `currentState` (line 392), then send it iff the client is
open and (`action === 'close'` or the local peer is active). -/
def vscodeUpdateState (s : VSState) (m : SyncState) : VSState × Option SyncState :=
  let s1 := { s with currentState := some m }
  if s.clientOpen && (m.action = "close" || s.isActive) then
    (s1, some m)
  else
    (s1, none)

/-- `onDidChangeWindowState` of extension.ts (lines 270-284): record the new
focus as `isActive`, and if a last-known state exists, re-submit it to
`updateState` with the updated `isActive` and `source := "vscode"`. -/
def vscodeOnWindowStateChange (s : VSState) (focused : Bool) :
    VSState × Option SyncState :=
  let s1 := { s with isActive := focused }
  match s1.currentState with
  | none => (s1, none)
  | some cur =>
    vscodeUpdateState s1 { cur with isActive := focused, source := "vscode" }

/-- The session fields `toggleAutoReconnect` of extension.ts manipulates:
the enable flag, whether a server object exists (`wss`), whether a client
is attached (`jetbrainsClient`), and `isConnected`. -/
structure VSSession where
  autoReconnect : Bool
  wssUp : Bool
  clientOpen : Bool
  isConnected : Bool
deriving DecidableEq, Repr

/-- `toggleAutoReconnect` of extension.ts (lines 90-113): flip the flag;
when turning off, close and null the client and the server and clear
`isConnected`; when turning on, `setupServer` creates a fresh server
(closing any existing one) and leaves client/connection state to the
connection events. -/
def vscodeToggle (s : VSSession) : VSSession :=
  if s.autoReconnect then
    { autoReconnect := false, wssUp := false, clientOpen := false,
      isConnected := false }
  else
    { autoReconnect := true, wssUp := true, clientOpen := s.clientOpen,
      isConnected := s.isConnected }

/-! ## JetBrains peer: outgoing path (`updateState`, window listeners, toggle) -/

/-- The fields of the Kotlin service that `updateState` reads:
`isHandlingExternalUpdate`, whether `webSocket` is non-null and open
(`connOpen` — when it is not, `updateState` only triggers a reconnect
attempt, which sends nothing), and `isActive`. -/
structure JBRt where
  handlingExternal : Bool
  connOpen : Bool
  isActive : Bool
deriving DecidableEq, Repr

/-- `updateState` of the Kotlin service (lines 365-403): skip entirely while
handling an external update; otherwise, with an open socket, send iff
`action == "close" || isActive`.  With a null or non-open socket nothing is
sent (a reconnect is scheduled instead, a connection-manager side effect). -/
def jbUpdateState (rt : JBRt) (m : SyncState) : Option SyncState :=
  if rt.handlingExternal then
    none
  else if rt.connOpen && (m.action = "close" || rt.isActive) then
    some m
  else
    none

/-- `updateStateFromEditor` (lines 282-292): build a fresh `EditorState`
from the current editor sample.  The Kotlin constructor's declared defaults
apply here, so `source = "jetbrains"`, and `action = "select"`. -/
def jbStateFromEditor (isActive : Bool) (path : String) (line column : Nat) :
    SyncState :=
  { filePath := path, line := line, column := column,
    source := "jetbrains", isActive := isActive, action := "select" }

/-- `windowGainedFocus` (lines 260-269): when the frame is visible, not
iconified and focused (`guardOk`), set `isActive := true` and, if an editor
and file are currently selected (`sample`), re-sample the current position
and submit it through `updateState`.  No retained last-known state is used:
the JetBrains peer re-reads the live caret. -/
def jbWindowGainedFocus (rt : JBRt) (guardOk : Bool)
    (sample : Option (String × Nat × Nat)) : JBRt × Option SyncState :=
  if guardOk then
    let rt1 := { rt with isActive := true }
    match sample with
    | none => (rt1, none)
    | some (p, l, c) => (rt1, jbUpdateState rt1 (jbStateFromEditor true p l c))
  else
    (rt, none)

/-- `windowLostFocus` (lines 271-278): set `isActive := false` and, if an
editor and file are selected, re-sample and submit through `updateState`. -/
def jbWindowLostFocus (rt : JBRt) (sample : Option (String × Nat × Nat)) :
    JBRt × Option SyncState :=
  let rt1 := { rt with isActive := false }
  match sample with
  | none => (rt1, none)
  | some (p, l, c) => (rt1, jbUpdateState rt1 (jbStateFromEditor false p l c))

/-- The session fields `toggleAutoReconnect` of the Kotlin service
manipulates. -/
structure JBSession where
  autoReconnect : Bool
  wsPresent : Bool
  isConnected : Bool
  isReconnecting : Bool
deriving DecidableEq, Repr

/-- `toggleAutoReconnect` of the Kotlin service (lines 67-89): flip the
flag; when turning off, close and null the socket and clear
`isConnected`/`isReconnecting`; when turning on, set `isReconnecting` and
call `connectWebSocket`, which creates a fresh (not yet connected) client. -/
def jbToggle (s : JBSession) : JBSession :=
  if s.autoReconnect then
    { autoReconnect := false, wsPresent := false, isConnected := false,
      isReconnecting := false }
  else
    { autoReconnect := true, wsPresent := true, isConnected := s.isConnected,
      isReconnecting := true }

/-! ## Message decoding (§4.1) -/

/-- A parsed JSON object frame: every wire field individually present or
absent.  (Extra unknown fields are irrelevant to both decoders and are not
modelled.) -/
structure RawFrame where
  filePath : Option String
  line : Option Nat
  column : Option Nat
  source : Option String
  isActive : Option Bool
  action : Option String
deriving DecidableEq, Repr

/-- A received text frame: syntactically malformed, or a JSON object. -/
inductive Frame where
  | malformed
  | object (f : RawFrame)
deriving DecidableEq, Repr

/-- VS Code decoding (extension.ts lines 148-157): `JSON.parse` with a cast
to `SyncState`.  No field is validated — any well-formed JSON object is
accepted with whatever fields it has; only a syntax error throws, and the
surrounding `catch` logs and drops the message. -/
def vscodeDecode : Frame → Option RawFrame
  | Frame.malformed => none
  | Frame.object f => some f

/-- The result of Gson deserialization into the Kotlin `EditorState` (lines
25-32).  `EditorState` has no no-argument constructor, so Gson instantiates
it through its Unsafe-based `ObjectConstructor`, which bypasses the Kotlin
constructor: the declared defaults (`source = "jetbrains"`, `isActive =
false`) are NOT applied to absent fields.  Absent fields keep their JVM
zero-values: `null` for the object-typed `filePath`/`source`/`action`
(despite `filePath` and `action` being declared non-nullable), `0` for
`line`/`column`, `false` for `isActive`. -/
structure JBDecoded where
  filePath : Option String
  line : Nat
  column : Nat
  source : Option String
  isActive : Bool
  action : Option String
deriving DecidableEq, Repr

/-- JetBrains decoding (`gson.fromJson(it, EditorState::class.java)`, line
126): any JSON object deserializes successfully with JVM zero-values for
absent fields; only malformed JSON throws, and the surrounding `catch`
(lines 130-133) logs and drops the message. -/
def jbDecode : Frame → Option JBDecoded
  | Frame.malformed => none
  | Frame.object f =>
    some { filePath := f.filePath, line := f.line.getD 0,
           column := f.column.getD 0, source := f.source,
           isActive := f.isActive.getD false, action := f.action }

/-- Outcome of one `message` event at the transport layer: whether the
frame was decoded or dropped, and whether the event closed the connection.
In both peers the decode `catch` only logs (extension.ts lines 153-156,
Kotlin lines 130-133): no path closes the socket. -/
def vscodeOnFrameClosesConnection (fr : Frame) : Bool :=
  match vscodeDecode fr with
  | none => false
  | some _ => false

/-- Same fact for the Kotlin `onMessage`: neither a decode failure nor a
handled message closes the connection. -/
def jbOnFrameClosesConnection (fr : Frame) : Bool :=
  match jbDecode fr with
  | none => false
  | some _ => false

/-! ## Helper lemmas -/

theorem opsOf_append (a b : List FlagEv) : opsOf (a ++ b) = opsOf a ++ opsOf b := by
  simp [opsOf]

theorem opsOf_nil : opsOf [] = [] := rfl

theorem opsOf_cons_setFlag (b : Bool) (tr : List FlagEv) :
    opsOf (FlagEv.setFlag b :: tr) = opsOf tr := rfl

theorem opsOf_cons_applyOp (op : EditorOp) (tr : List FlagEv) :
    opsOf (FlagEv.applyOp op :: tr) = op :: opsOf tr := rfl

theorem opsOf_map_applyOp (ops : List EditorOp) :
    opsOf (ops.map FlagEv.applyOp) = ops := by
  induction ops with
  | nil => rfl
  | cons o rest ih => rw [List.map_cons, opsOf_cons_applyOp, ih]

theorem opsOf_setFlag_wrap (ops : List EditorOp) :
    opsOf ([FlagEv.setFlag true] ++ ops.map FlagEv.applyOp
      ++ [FlagEv.setFlag false]) = ops := by
  rw [opsOf_append, opsOf_append, opsOf_map_applyOp, opsOf_cons_setFlag,
    opsOf_cons_setFlag, opsOf_nil]
  simp

theorem vscodeHandleIncoming_select (env : VSEnv) (m : SyncState)
    (hact : m.action = "select") (hsrc : m.source ≠ "vscode") :
    vscodeHandleIncoming env m = { trace := vsSelectPart env m, sent := none } := by
  simp [vscodeHandleIncoming, hsrc, hact]

theorem vsSelectPart_active (env : VSEnv) (m : SyncState)
    (hb : m.isActive = true) :
    vsSelectPart env m =
      [FlagEv.setFlag true] ++ (vsSelectOps env m).map FlagEv.applyOp
        ++ [FlagEv.setFlag false] := by
  simp [vsSelectPart, hb]

theorem jbOnMessage_remote (env : JBEnv) (m : SyncState)
    (hsrc : m.source ≠ "jetbrains") :
    jbOnMessage env m = jbHandleIncoming env m := by
  simp [jbOnMessage, hsrc]

theorem jbHandleIncoming_select_active (env : JBEnv) (m : SyncState)
    (hact : m.action = "select") (hb : m.isActive = true) :
    jbHandleIncoming env m =
      { syncTrace := [FlagEv.setFlag true, FlagEv.setFlag false],
        queued := jbSelectQueued env m, sent := none } := by
  simp [jbHandleIncoming, hact, hb]

theorem jbHandleIncoming_select_inactive (env : JBEnv) (m : SyncState)
    (hact : m.action = "select") (hb : m.isActive = false) :
    jbHandleIncoming env m = { syncTrace := [], queued := [], sent := none } := by
  simp [jbHandleIncoming, hact, hb]

theorem jbSelectQueued_found (env : JBEnv) (m : SyncState)
    (hfile : env.files.contains m.filePath = true) (hed : env.editorOk = true) :
    jbSelectQueued env m =
      (if env.alreadyOpen then [] else [EditorOp.openFile m.filePath])
        ++ [EditorOp.setCaret m.line m.column]
        ++ (if env.visible then [] else [EditorOp.reveal]) := by
  have hmem : m.filePath ∈ env.files := by simpa using hfile
  simp [jbSelectQueued, jbFindFile, hmem, hed]

/-! ## Concrete inputs used by witnesses and counterexamples -/

def envV0 : VSEnv :=
  { openDocs := ["/x.py"], visibleEditors := [], openTabs := ["/x.py"],
    closeThrows := false, openOk := true, visible := false }

def envJ0 : JBEnv :=
  { files := ["/x.py"], alreadyOpen := false, editorOk := true, visible := false }

def selFromJB : SyncState :=
  { filePath := "/x.py", line := 10, column := 4, source := "jetbrains",
    isActive := true, action := "select" }

def selFromVS : SyncState :=
  { filePath := "/x.py", line := 10, column := 4, source := "vscode",
    isActive := true, action := "select" }

def closeFromJB : SyncState :=
  { filePath := "/x.py", line := 0, column := 0, source := "jetbrains",
    isActive := false, action := "close" }

def closeFromVS : SyncState :=
  { filePath := "/x.py", line := 0, column := 0, source := "vscode",
    isActive := false, action := "close" }

/-! ## Claim C1 -/

/-- Claim C1: for a received `select` message from the remote peer, the
incoming filter applies it (reaching the guarded apply step, which opens the
named file and moves the caret) iff `isActive = true` in the message; an
inactive `select` is discarded with no editor-control call, no state change
and no outgoing message.  Stated for both peers: `mV` arrives at the VS Code
peer (remote source is not `"vscode"`), `mJ` at the JetBrains peer. -/
theorem c1_select_requires_remote_activation
    (envV : VSEnv) (envJ : JBEnv) (mV mJ : SyncState)
    (hactV : mV.action = "select") (hsrcV : mV.source ≠ "vscode")
    (hopenV : envV.openOk = true)
    (hactJ : mJ.action = "select") (hsrcJ : mJ.source ≠ "jetbrains")
    (hfileJ : envJ.files.contains mJ.filePath = true)
    (hedJ : envJ.editorOk = true) :
    ((vscodeHandleIncoming envV mV).trace ≠ [] ↔ mV.isActive = true)
    ∧ ((jbOnMessage envJ mJ).syncTrace ≠ [] ↔ mJ.isActive = true)
    ∧ (mV.isActive = true →
        opsOf (vscodeHandleIncoming envV mV).trace =
          [EditorOp.openFile mV.filePath, EditorOp.setCaret mV.line mV.column,
           EditorOp.reveal])
    ∧ (mJ.isActive = true →
        (jbOnMessage envJ mJ).queued =
          (if envJ.alreadyOpen then [] else [EditorOp.openFile mJ.filePath])
            ++ [EditorOp.setCaret mJ.line mJ.column]
            ++ (if envJ.visible then [] else [EditorOp.reveal]))
    ∧ (mV.isActive = false →
        vscodeHandleIncoming envV mV = { trace := [], sent := none })
    ∧ (mJ.isActive = false →
        jbOnMessage envJ mJ = { syncTrace := [], queued := [], sent := none })
    ∧ (vscodeHandleIncoming envV mV).sent = none
    ∧ (jbOnMessage envJ mJ).sent = none := by
  rw [vscodeHandleIncoming_select envV mV hactV hsrcV,
    jbOnMessage_remote envJ mJ hsrcJ]
  cases hbV : mV.isActive with
  | false =>
    cases hbJ : mJ.isActive with
    | false =>
      rw [jbHandleIncoming_select_inactive envJ mJ hactJ hbJ]
      simp [vsSelectPart, hbV]
    | true =>
      rw [jbHandleIncoming_select_active envJ mJ hactJ hbJ]
      simp [vsSelectPart, hbV, jbSelectQueued_found envJ mJ hfileJ hedJ]
  | true =>
    cases hbJ : mJ.isActive with
    | false =>
      rw [jbHandleIncoming_select_inactive envJ mJ hactJ hbJ]
      simp [vsSelectPart, hbV, vsSelectOps, hopenV, opsOf_cons_setFlag,
        opsOf_cons_applyOp, opsOf_nil]
    | true =>
      rw [jbHandleIncoming_select_active envJ mJ hactJ hbJ]
      simp [vsSelectPart, hbV, vsSelectOps, hopenV, opsOf_cons_setFlag,
        opsOf_cons_applyOp, opsOf_nil, jbSelectQueued_found envJ mJ hfileJ hedJ]

/-- Claim C1 witness: the select-applies-iff-active equivalence evaluated on
a concrete active select message at each peer. -/
theorem c1_select_requires_remote_activation_witness :
    (vscodeHandleIncoming envV0 selFromJB).trace ≠ [] ↔ selFromJB.isActive = true :=
  (c1_select_requires_remote_activation envV0 envJ0 selFromJB selFromVS
    (by decide) (by decide) (by decide) (by decide) (by decide) (by decide)
    (by decide)).1

/-! ## Claim C2 -/

/-- Claim C2: a received `close` message from the remote peer is applied
(the close attempt is issued under the echo guard) for every value of
`isActive`; a missing or already-closed target leads to no editor-control
call rather than an error, and no outgoing message is produced.  `mV`
arrives at the VS Code peer, `mJ` at the JetBrains peer; `closeThrows =
false` selects the no-exception path of the VS Code close branch. -/
theorem c2_close_unconditional
    (envV : VSEnv) (envJ : JBEnv) (mV mJ : SyncState)
    (hactV : mV.action = "close") (hsrcV : mV.source ≠ "vscode")
    (hthrow : envV.closeThrows = false)
    (hactJ : mJ.action = "close") (hsrcJ : mJ.source ≠ "jetbrains") :
    (∀ b, vscodeHandleIncoming envV { mV with isActive := b } =
      vscodeHandleIncoming envV mV)
    ∧ (vscodeHandleIncoming envV mV).trace =
        [FlagEv.setFlag true] ++ (vsCloseOps envV mV.filePath).map FlagEv.applyOp
          ++ [FlagEv.setFlag false]
    ∧ (vsFindDoc envV mV.filePath = none →
        opsOf (vscodeHandleIncoming envV mV).trace = [])
    ∧ (∀ b, jbOnMessage envJ { mJ with isActive := b } = jbOnMessage envJ mJ)
    ∧ (jbOnMessage envJ mJ).queued = jbCloseQueued envJ mJ
    ∧ (jbFindFile envJ mJ.filePath = none → (jbOnMessage envJ mJ).queued = [])
    ∧ (vscodeHandleIncoming envV mV).sent = none
    ∧ (jbOnMessage envJ mJ).sent = none := by
  have hv : ∀ b, vscodeHandleIncoming envV { mV with isActive := b } =
      { trace := [FlagEv.setFlag true]
          ++ (vsCloseOps envV mV.filePath).map FlagEv.applyOp
          ++ [FlagEv.setFlag false],
        sent := none } := by
    intro b
    simp [vscodeHandleIncoming, hsrcV, hactV, hthrow]
  have hv0 : vscodeHandleIncoming envV mV =
      { trace := [FlagEv.setFlag true]
          ++ (vsCloseOps envV mV.filePath).map FlagEv.applyOp
          ++ [FlagEv.setFlag false],
        sent := none } := by
    simp [vscodeHandleIncoming, hsrcV, hactV, hthrow]
  have hj : ∀ b, jbOnMessage envJ { mJ with isActive := b } =
      { syncTrace := [FlagEv.setFlag true, FlagEv.setFlag false],
        queued := jbCloseQueued envJ { mJ with isActive := b }, sent := none } := by
    intro b
    simp [jbOnMessage, jbHandleIncoming, hsrcJ, hactJ]
  have hj0 : jbOnMessage envJ mJ =
      { syncTrace := [FlagEv.setFlag true, FlagEv.setFlag false],
        queued := jbCloseQueued envJ mJ, sent := none } := by
    simp [jbOnMessage, jbHandleIncoming, hsrcJ, hactJ]
  refine ⟨fun b => ?_, ?_, ?_, fun b => ?_, ?_, ?_, ?_, ?_⟩
  · rw [hv b, hv0]
  · rw [hv0]
  · intro hnone
    rw [hv0]
    simp [vsCloseOps, hnone, opsOf_cons_setFlag, opsOf_nil]
  · rw [hj b, hj0]
    simp [jbCloseQueued]
  · rw [hj0]
  · intro hnone
    rw [hj0]
    simp [jbCloseQueued, hnone]
  · rw [hv0]
  · rw [hj0]

/-- Claim C2 witness: independence from `isActive` evaluated on a concrete
close message at the VS Code peer, at the flipped activation value. -/
theorem c2_close_unconditional_witness :
    vscodeHandleIncoming envV0 { closeFromJB with isActive := true } =
      vscodeHandleIncoming envV0 closeFromJB :=
  (c2_close_unconditional envV0 envJ0 closeFromJB closeFromVS
    (by decide) (by decide) (by decide) (by decide) (by decide)).1 true

/-! ## Claim C3 -/

/-- Claim C3: with an open connection, `updateState` transmits a locally
observed candidate iff its action is `"close"` or the local peer is active;
in particular a close candidate is transmitted regardless of activation and
an inactive select candidate is dropped.  For the JetBrains peer a locally
observed event reaches `updateState` with the echo-guard flag clear
(`handlingExternal = false`; `updateState` itself rechecks it). -/
theorem c3_outgoing_gating (s : VSState) (rt : JBRt) (mV mJ : SyncState)
    (hs : s.clientOpen = true) (hrt : rt.connOpen = true)
    (hhe : rt.handlingExternal = false) :
    ((vscodeUpdateState s mV).2 = some mV ↔
      (mV.action = "close" ∨ s.isActive = true))
    ∧ ((vscodeUpdateState s mV).2 = none ↔
        ¬(mV.action = "close" ∨ s.isActive = true))
    ∧ (jbUpdateState rt mJ = some mJ ↔
        (mJ.action = "close" ∨ rt.isActive = true))
    ∧ (jbUpdateState rt mJ = none ↔
        ¬(mJ.action = "close" ∨ rt.isActive = true)) := by
  cases hA : s.isActive <;> cases hB : rt.isActive <;>
    by_cases h1 : mV.action = "close" <;> by_cases h2 : mJ.action = "close" <;>
      simp [vscodeUpdateState, jbUpdateState, hs, hrt, hhe, hA, hB, h1, h2]

/-- Concrete session values for the outgoing-path witnesses. -/
def vs0 : VSState := { currentState := none, isActive := true, clientOpen := true }

def rt0 : JBRt := { handlingExternal := false, connOpen := true, isActive := true }

/-- Claim C3 witness: the VS Code transmit-iff equivalence evaluated on a
concrete select candidate with the client open and the peer active. -/
theorem c3_outgoing_gating_witness :
    (vscodeUpdateState vs0 selFromVS).2 = some selFromVS ↔
      (selFromVS.action = "close" ∨ vs0.isActive = true) :=
  (c3_outgoing_gating vs0 rt0 selFromVS selFromVS
    (by decide) (by decide) (by decide)).1

/-! ## Claim C4 -/

/-- Claim C4: a received message whose `source` equals the local peer's own
identity is discarded with no side effect: no editor-control call, no flag
write, and no outgoing message.  `mV` carries `source = "vscode"` at the
VS Code peer; `mJ` carries `source = "jetbrains"` at the JetBrains peer. -/
theorem c4_self_echo_suppression
    (envV : VSEnv) (envJ : JBEnv) (mV mJ : SyncState)
    (hV : mV.source = "vscode") (hJ : mJ.source = "jetbrains") :
    vscodeHandleIncoming envV mV = { trace := [], sent := none }
    ∧ jbOnMessage envJ mJ = { syncTrace := [], queued := [], sent := none } := by
  constructor
  · simp [vscodeHandleIncoming, hV]
  · simp [jbOnMessage, hJ]

/-- Claim C4 witness: self-echo suppression evaluated on concrete
self-sourced messages at each peer. -/
theorem c4_self_echo_suppression_witness :
    vscodeHandleIncoming envV0 selFromVS = { trace := [], sent := none }
    ∧ jbOnMessage envJ0 selFromJB =
        { syncTrace := [], queued := [], sent := none } :=
  c4_self_echo_suppression envV0 envJ0 selFromVS selFromJB
    (by decide) (by decide)

/-! ## Claim C5 -/

/-- A close message from the VS Code peer arriving at the JetBrains peer,
with the target file present, used to exhibit the echo-guard gap. -/
def c5Env : JBEnv :=
  { files := ["/x.py"], alreadyOpen := false, editorOk := true, visible := false }

def c5Msg : SyncState :=
  { filePath := "/x.py", line := 0, column := 0, source := "vscode",
    isActive := false, action := "close" }

/-- Claim C5: the echo-guard flag is claimed to be true for the whole
duration of applying an external update.  On the JetBrains peer this fails:
`handleIncomingState` sets the flag, hands the editor work to
`ApplicationManager.invokeLater` (which only queues it for the EDT), and the
`finally` clears the flag synchronously — so in the schedule where the EDT
runs the queued apply after the handler returns, the close/select apply
executes with the flag already false (and the `fileClosed` listener's own
guard check, which the code expects to fire, sees a clear flag).  This
theorem evaluates the model at a concrete close message: work is queued, the
flag is already false when the handler's synchronous trace ends, and the
queued editor apply does not run under the flag. -/
theorem c5_jb_echo_guard_cleared_before_apply :
    (jbOnMessage c5Env c5Msg).queued = [EditorOp.closeTab "/x.py"]
    ∧ flagAfter false (jbOnMessage c5Env c5Msg).syncTrace = false
    ∧ appliesUnderFlag false (jbExecTrace (jbOnMessage c5Env c5Msg)) = false
    ∧ appliesUnderFlag false (vscodeHandleIncoming envV0 closeFromJB).trace = true
    ∧ flagAfter false (vscodeHandleIncoming envV0 closeFromJB).trace = false := by
  decide

/-! ## Claim C6 -/

/-- A select message whose target position is already visible, arriving at
the VS Code peer. -/
def c6Env : VSEnv :=
  { openDocs := [], visibleEditors := [], openTabs := [],
    closeThrows := false, openOk := true, visible := true }

def c6Msg : SyncState :=
  { filePath := "/x.py", line := 10, column := 4, source := "jetbrains",
    isActive := true, action := "select" }

/-- Claim C6 counterexample: the claim says an applied incoming select
scrolls only if the target position is not already visible, and that no
scroll operation is issued when it is on screen.  The VS Code apply step
(extension.ts lines 379-382) calls `editor.revealRange(..., InCenter)`
unconditionally: here the position is already visible (`visible = true`),
yet a reveal operation is issued. -/
theorem c6_counterexample :
    c6Env.visible = true
    ∧ EditorOp.reveal ∈ opsOf (vscodeHandleIncoming c6Env c6Msg).trace := by
  decide

/-- Claim C6 as amended: an applied incoming select ensures the file is
open, then moves the caret; the JetBrains peer then scrolls iff the target
position is not already visible, while the VS Code peer always issues a
reveal (`revealRange` with `InCenter`) regardless of visibility. -/
theorem c6_scroll_behaviour
    (envV : VSEnv) (envJ : JBEnv) (mV mJ : SyncState)
    (hactV : mV.action = "select") (hsrcV : mV.source ≠ "vscode")
    (hbV : mV.isActive = true) (hopenV : envV.openOk = true)
    (hactJ : mJ.action = "select") (hsrcJ : mJ.source ≠ "jetbrains")
    (hbJ : mJ.isActive = true)
    (hfileJ : envJ.files.contains mJ.filePath = true)
    (hedJ : envJ.editorOk = true) :
    opsOf (vscodeHandleIncoming envV mV).trace =
      [EditorOp.openFile mV.filePath, EditorOp.setCaret mV.line mV.column,
       EditorOp.reveal]
    ∧ (jbOnMessage envJ mJ).queued =
        (if envJ.alreadyOpen then [] else [EditorOp.openFile mJ.filePath])
          ++ [EditorOp.setCaret mJ.line mJ.column]
          ++ (if envJ.visible then [] else [EditorOp.reveal])
    ∧ (EditorOp.reveal ∈ (jbOnMessage envJ mJ).queued ↔ envJ.visible = false) := by
  rw [vscodeHandleIncoming_select envV mV hactV hsrcV,
    jbOnMessage_remote envJ mJ hsrcJ,
    jbHandleIncoming_select_active envJ mJ hactJ hbJ]
  refine ⟨?_, ?_, ?_⟩
  · simp [vsSelectPart, hbV, vsSelectOps, hopenV, opsOf_cons_setFlag,
      opsOf_cons_applyOp, opsOf_nil]
  · simp [jbSelectQueued_found envJ mJ hfileJ hedJ]
  · rw [jbSelectQueued_found envJ mJ hfileJ hedJ]
    cases ho : envJ.alreadyOpen <;> cases hv : envJ.visible <;> simp

/-- Claim C6 (amended) witness: the JetBrains scroll-iff-not-visible
equivalence evaluated on a concrete select message with the position not
visible. -/
theorem c6_scroll_behaviour_witness :
    EditorOp.reveal ∈ (jbOnMessage envJ0 selFromVS).queued ↔
      envJ0.visible = false :=
  (c6_scroll_behaviour envV0 envJ0 selFromJB selFromVS
    (by decide) (by decide) (by decide) (by decide) (by decide) (by decide)
    (by decide) (by decide) (by decide)).2.2

/-! ## Claim C7 -/

/-- A well-formed JSON frame with no `filePath` field. -/
def c7Frame : RawFrame :=
  { filePath := none, line := some 1, column := some 2,
    source := some "jetbrains", isActive := some true, action := some "select" }

/-- Claim C7 counterexample: the claim says decoding rejects frames missing
`filePath` (likewise `line`, `column`, `action`).  Neither peer validates
fields: VS Code casts the result of `JSON.parse` without checks, and Gson
deserializes into `EditorState` through its Unsafe constructor.  A frame
with no `filePath` decodes successfully at both peers. -/
theorem c7_counterexample :
    c7Frame.filePath = none
    ∧ (vscodeDecode (Frame.object c7Frame)).isSome = true
    ∧ (jbDecode (Frame.object c7Frame)).isSome = true := by
  decide

/-- Claim C7 as amended: decoding rejects only syntactically malformed
frames (dropped locally, the connection stays open); every well-formed JSON
object decodes successfully regardless of which fields are missing.  Absent
fields are defaulted rather than rejected: on the JetBrains peer a missing
`isActive` becomes `false`, a missing `source` becomes `null` (an
unknown-peer value — Gson bypasses the Kotlin default `"jetbrains"`), and
even a missing `filePath`/`line` become `null`/`0`. -/
theorem c7_decode_no_validation (f : RawFrame) :
    (vscodeDecode (Frame.object f)).isSome = true
    ∧ (jbDecode (Frame.object f)).isSome = true
    ∧ vscodeDecode Frame.malformed = none
    ∧ jbDecode Frame.malformed = none
    ∧ vscodeOnFrameClosesConnection Frame.malformed = false
    ∧ jbOnFrameClosesConnection Frame.malformed = false
    ∧ (∀ d, jbDecode (Frame.object f) = some d →
        (f.isActive = none → d.isActive = false)
        ∧ (f.source = none → d.source = none)
        ∧ (f.filePath = none → d.filePath = none)
        ∧ (f.line = none → d.line = 0)) := by
  refine ⟨rfl, rfl, rfl, rfl, rfl, rfl, ?_⟩
  intro d hd
  have hd' : d =
      { filePath := f.filePath, line := f.line.getD 0,
        column := f.column.getD 0, source := f.source,
        isActive := f.isActive.getD false, action := f.action } := by
    simpa [jbDecode] using hd.symm
  subst hd'
  refine ⟨?_, ?_, ?_, ?_⟩ <;> intro h <;> simp [h]

/-- The all-fields-absent frame. -/
def frAllNone : RawFrame :=
  { filePath := none, line := none, column := none, source := none,
    isActive := none, action := none }

/-- Claim C7 (amended) witness: the all-fields-absent frame decodes at both
peers, and its JetBrains decode carries the defaulted `isActive = false`. -/
theorem c7_decode_no_validation_witness :
    (vscodeDecode (Frame.object frAllNone)).isSome = true
    ∧ (jbDecode (Frame.object frAllNone)).isSome = true
    ∧ ({ filePath := none, line := 0, column := 0, source := none,
         isActive := false, action := none } : JBDecoded).isActive = false :=
  ⟨(c7_decode_no_validation frAllNone).1,
   (c7_decode_no_validation frAllNone).2.1,
   ((c7_decode_no_validation frAllNone).2.2.2.2.2.2
     { filePath := none, line := 0, column := 0, source := none,
       isActive := false, action := none } rfl).1 rfl⟩

/-! ## Claim C8 -/

/-- A VS Code session that is active, connected, and holds a retained
last-known select state, about to lose focus. -/
def c8State : VSState :=
  { currentState := some selFromVS, isActive := true, clientOpen := true }

/-- Claim C8 counterexample: the claim says the last-known state is re-sent
with the updated `isActive` flag in both transition directions.  On the
active-to-inactive transition the window listener does re-submit the state,
but `updateState`'s outgoing filter (`action === 'close' || this.isActive`)
drops it: with a retained select state, an open connection and focus lost,
nothing is transmitted. -/
theorem c8_counterexample :
    c8State.currentState = some selFromVS
    ∧ c8State.clientOpen = true
    ∧ c8State.isActive = true
    ∧ selFromVS.action = "select"
    ∧ (vscodeOnWindowStateChange c8State false).2 = none := by
  decide

/-- Claim C8 as amended: on a focus change the VS Code peer re-submits its
retained last-known state with the updated `isActive` and `source` through
`updateState` (the JetBrains peer instead re-samples the live caret
position), and the re-submission is transmitted iff the outgoing filter
passes it — always on gaining focus, and on losing focus only if the
retained action is `"close"`; a lost-focus select re-broadcast is dropped.
-/
theorem c8_focus_rebroadcast
    (s : VSState) (cur : SyncState) (focused : Bool) (rt : JBRt)
    (p : String) (l c : Nat)
    (hcur : s.currentState = some cur) (hconn : s.clientOpen = true)
    (hhe : rt.handlingExternal = false) (hconnJ : rt.connOpen = true) :
    (vscodeOnWindowStateChange s focused).2 =
      (if cur.action = "close" ∨ focused = true then
        some { cur with isActive := focused, source := "vscode" }
      else none)
    ∧ (vscodeOnWindowStateChange s focused).1.isActive = focused
    ∧ (vscodeOnWindowStateChange s focused).1.currentState =
        some { cur with isActive := focused, source := "vscode" }
    ∧ (jbWindowGainedFocus rt true (some (p, l, c))).2 =
        some (jbStateFromEditor true p l c)
    ∧ (∀ rt' sample, (jbWindowLostFocus rt' sample).2 = none) := by
  refine ⟨?_, ?_, ?_, ?_, ?_⟩
  · by_cases h : cur.action = "close" ∨ focused = true
    · rcases h with h | h <;>
        simp [vscodeOnWindowStateChange, vscodeUpdateState, hcur, hconn, h]
    · push_neg at h
      simp [vscodeOnWindowStateChange, vscodeUpdateState, hcur, hconn,
        h.1, h.2]
  · simp [vscodeOnWindowStateChange, vscodeUpdateState, hcur]
    split <;> rfl
  · simp [vscodeOnWindowStateChange, vscodeUpdateState, hcur]
    split <;> rfl
  · simp [jbWindowGainedFocus, jbUpdateState, jbStateFromEditor, hhe, hconnJ]
  · intro rt' sample
    cases sample with
    | none => rfl
    | some s0 =>
      obtain ⟨p0, l0, c0⟩ := s0
      by_cases h : rt'.handlingExternal = true <;>
        simp [jbWindowLostFocus, jbUpdateState, jbStateFromEditor, h]

/-- Claim C8 (amended) witness: regaining focus with a retained select
state and an open connection transmits the updated state. -/
theorem c8_focus_rebroadcast_witness :
    (vscodeOnWindowStateChange
      { currentState := some selFromVS, isActive := false, clientOpen := true }
      true).2 =
      (if selFromVS.action = "close" ∨ true = true then
        some { selFromVS with isActive := true, source := "vscode" }
      else none) :=
  (c8_focus_rebroadcast
    { currentState := some selFromVS, isActive := false, clientOpen := true }
    selFromVS true rt0 "/x.py" 10 4 (by decide) (by decide) (by decide)
    (by decide)).1

/-! ## Claim C9 -/

/-- A freshly constructed disabled VS Code session. -/
def c9Start : VSSession :=
  { autoReconnect := false, wssUp := false, clientOpen := false,
    isConnected := false }

/-- Claim C9 counterexample: the claim says applying the toggle twice from
any session state leaves the session as applying it once.  From the
disabled session one application enables sync and a second disables it
again: the enabled flag after two applications differs from the flag after
one. -/
theorem c9_counterexample :
    (vscodeToggle c9Start).autoReconnect = true
    ∧ (vscodeToggle (vscodeToggle c9Start)).autoReconnect = false
    ∧ vscodeToggle (vscodeToggle c9Start) ≠ vscodeToggle c9Start := by
  decide

/-- Claim C9 as amended: the toggle is an involution on the enabled flag,
not idempotent — each application flips `autoReconnect` (flipping `Disabled
⇄ Connecting`), and two applications restore it; turning on from disabled
yields an enabled session with a fresh server/client object, and turning
off tears everything down. -/
theorem c9_toggle_involution (sv : VSSession) (sj : JBSession) :
    (vscodeToggle sv).autoReconnect = !sv.autoReconnect
    ∧ (vscodeToggle (vscodeToggle sv)).autoReconnect = sv.autoReconnect
    ∧ (jbToggle sj).autoReconnect = !sj.autoReconnect
    ∧ (jbToggle (jbToggle sj)).autoReconnect = sj.autoReconnect
    ∧ (sv.autoReconnect = false → vscodeToggle sv =
        { autoReconnect := true, wssUp := true, clientOpen := sv.clientOpen,
          isConnected := sv.isConnected })
    ∧ (sv.autoReconnect = true → vscodeToggle sv =
        { autoReconnect := false, wssUp := false, clientOpen := false,
          isConnected := false }) := by
  cases hv : sv.autoReconnect <;> cases hj : sj.autoReconnect <;>
    simp [vscodeToggle, jbToggle, hv, hj]

/-- Claim C9 (amended) witness: the flip equations evaluated on the
disabled session. -/
theorem c9_toggle_involution_witness :
    (vscodeToggle c9Start).autoReconnect = !c9Start.autoReconnect :=
  (c9_toggle_involution c9Start
    { autoReconnect := false, wsPresent := false, isConnected := false,
      isReconnecting := false }).1

/-! ## Claim C10 -/

/-- Claim C10: every call of the VS Code `updateState` records its argument
as `currentState` before the transmission decision — also when nothing is
sent because the client is not open or the peer is inactive — so the
focus-change re-broadcast always uses the most recent locally observed
event. -/
theorem c10_current_state_always_recorded (s : VSState) (m : SyncState) :
    (vscodeUpdateState s m).1.currentState = some m
    ∧ (s.clientOpen = false → (vscodeUpdateState s m).2 = none) := by
  constructor
  · simp only [vscodeUpdateState]
    split <;> rfl
  · intro h
    simp [vscodeUpdateState, h]

/-- Claim C10 witness: the argument is recorded even with the client closed
and the peer inactive, when nothing is transmitted. -/
theorem c10_current_state_always_recorded_witness :
    (vscodeUpdateState
      { currentState := none, isActive := false, clientOpen := false }
      selFromVS).1.currentState = some selFromVS :=
  (c10_current_state_always_recorded
    { currentState := none, isActive := false, clientOpen := false }
    selFromVS).1

end IDESync
